import Mathlib

/-!
Shallow embedding of the `dbresolver` Go package
(`dbresolver/config.go`, `dbresolver/dbresolver.go`).

Modelling decisions:
* Go maps (`map[string]string`, `map[string]map[string]string`,
  `map[string]*gorm.DB`) are modelled as association lists with unique
  keys; a list fixes one iteration order for the `range` loops (Go
  leaves map iteration order unspecified, so theorems about
  order-sensitive behaviour are relative to the modelled order).
* `*gorm.DB` handles are opaque; each call of `gorm.Open` performed by
  `New` yields a fresh handle (`GormDB.mk i` for the `i`-th open call),
  so equality of `GormDB` values models identity of handle instances.
* `gorm.Open` is external code; its success or failure is an oracle
  parameter `openOk : Dialect → Bool` of `New`.
* Go panics are modelled as explicit error / `Option` results.
* The process-wide variable `apiKeyHeader` (settable via `SetHeaderName`)
  is passed to `Middleware` as an explicit argument.
-/

namespace Dbresolver

/-- First-match lookup in an association list, modelling Go map indexing
`m[k]` with its `ok` flag (keys are unique in a Go map, so the first
match is the only one). -/
def lookupA {α : Type} : List (String × α) → String → Option α
  | [], _ => none
  | (k2, v) :: rest, k => if k2 = k then some v else lookupA rest k

/-- The configuration entry of one tenant, Go `map[string]string`
(keys of interest: `"driver"` and `"database"`). -/
abbrev Entry := List (String × String)

/-- `DatabaseConfig` from config.go: maps API keys to database objects
(Go `map[string]map[string]string`). -/
abbrev DatabaseConfig := List (String × Entry)

/-- `DBDriver` from dbresolver.go lines 35–38. The Go `Driver` type is a
string; the supported constants are `"sqlite"`, `"mysql"`, `"postgres"`. -/
structure DBDriver where
  driver : String
  database : String
deriving DecidableEq, Repr

/-- `DatabaseConfig.DatabaseDrivers` from config.go lines 17–37: one
`DBDriver` per tenant entry, in iteration order. The Go code panics when
an entry lacks the `"driver"` or `"database"` key; the panic is modelled
as `none`. -/
def DatabaseDrivers : DatabaseConfig → Option (List DBDriver)
  | [] => some []
  | (_, dbmap) :: rest =>
    match lookupA dbmap "driver", lookupA dbmap "database" with
    | some driver, some database =>
      (DatabaseDrivers rest).map (fun ds => (⟨driver, database⟩ : DBDriver) :: ds)
    | _, _ => none

/-- An opaque `*gorm.DB` connection handle; `id` is the index of the
`gorm.Open` call that produced it, so distinct opens give distinct
(non-identical) handles. -/
structure GormDB where
  id : Nat
deriving DecidableEq, Repr

/-- A `gorm.Dialector` as produced by the `switch` in `New`
(dbresolver.go lines 81–90). -/
inductive Dialect
  | sqliteOpen (database : String)
  | mysqlOpen (database : String)
  | postgresOpen (database : String)
deriving DecidableEq, Repr

/-- The `switch dbDriver.Driver` of `New` (dbresolver.go lines 81–90):
a supported driver yields its dialector, anything else hits the
`default` branch (`none`, which `New` turns into an error). -/
def dialectFor (driver database : String) : Option Dialect :=
  match driver with
  | "sqlite" => some (.sqliteOpen database)
  | "mysql" => some (.mysqlOpen database)
  | "postgres" => some (.postgresOpen database)
  | _ => none

/-- Go map assignment `resolver.conns[database] = conn`
(dbresolver.go line 99): replace the binding if the key is present,
otherwise add it. -/
def insertConn (conns : List (String × GormDB)) (k : String) (v : GormDB) :
    List (String × GormDB) :=
  match conns with
  | [] => [(k, v)]
  | (k2, v2) :: rest => if k2 = k then (k, v) :: rest else (k2, v2) :: insertConn rest k v

/-- Ways `New` can fail to return a resolver: the panic inside
`DatabaseDrivers` (missing `"driver"`/`"database"` key), the
`unsupported database driver` error, or a `gorm.Open` failure
propagated from `createDB`. -/
inductive NewError
  | missingKey
  | unsupportedDriver (driver : String)
  | connError (dialect : Dialect)
deriving DecidableEq, Repr

/-- `DBResolver` from dbresolver.go lines 42–46 (the `*gorm.Config`
field does not affect any modelled behaviour and is omitted). -/
structure DBResolver where
  conns : List (String × GormDB)
  databaseConfig : DatabaseConfig
deriving DecidableEq, Repr

/-- The `for _, dbDriver := range c.DatabaseDrivers()` loop of `New`
(dbresolver.go lines 77–100), threading the registry `conns` and the
index `fresh` of the next `gorm.Open` call. `openOk` tells whether
`gorm.Open` succeeds on a given dialector. -/
def newLoop (openOk : Dialect → Bool) :
    List DBDriver → List (String × GormDB) → Nat →
    Except NewError (List (String × GormDB) × Nat)
  | [], conns, fresh => .ok (conns, fresh)
  | d :: rest, conns, fresh =>
    match dialectFor d.driver d.database with
    | none => .error (.unsupportedDriver d.driver)
    | some dialect =>
      if openOk dialect then
        newLoop openOk rest (insertConn conns d.database ⟨fresh⟩) (fresh + 1)
      else .error (.connError dialect)

/-- `New` from dbresolver.go lines 65–103. On success it returns the
resolver together with the total number of `gorm.Open` calls performed
(the final value of the fresh-handle counter). -/
def New (c : DatabaseConfig) (openOk : Dialect → Bool) :
    Except NewError (DBResolver × Nat) :=
  match DatabaseDrivers c with
  | none => .error .missingKey
  | some drivers =>
    match newLoop openOk drivers [] 0 with
    | .error e => .error e
    | .ok (conns, fresh) => .ok (⟨conns, c⟩, fresh)

/-- The three error shapes produced by `resolveConnection` /
`resolveDatabaseName` (dbresolver.go lines 116–147); each carries the
API key interpolated into the `fmt.Errorf` message. -/
inductive ResolveError
  | unknownTenant (apiKey : String)
  | missingDatabaseKey (apiKey : String)
  | noConnection (apiKey : String)
deriving DecidableEq, Repr

/-- `DBResolver.resolveConnection` from dbresolver.go lines 116–133. -/
def resolveConnection (resolver : DBResolver) (apiKey : String) :
    Except ResolveError GormDB :=
  match lookupA resolver.databaseConfig apiKey with
  | none => .error (.unknownTenant apiKey)
  | some databaseMap =>
    match lookupA databaseMap "database" with
    | none => .error (.missingDatabaseKey apiKey)
    | some databaseName =>
      match lookupA resolver.conns databaseName with
      | none => .error (.noConnection apiKey)
      | some conn => .ok conn

/-- `DBResolver.resolveDatabaseName` from dbresolver.go lines 136–147. -/
def resolveDatabaseName (resolver : DBResolver) (apiKey : String) :
    Except ResolveError String :=
  match lookupA resolver.databaseConfig apiKey with
  | none => .error (.unknownTenant apiKey)
  | some databaseMap =>
    match lookupA databaseMap "database" with
    | none => .error (.missingDatabaseKey apiKey)
    | some databaseName => .ok databaseName

/-- Whether a resolution result is the `no valid connection exists`
error (the third branch of `resolveConnection`). -/
def isNoConnection {α : Type} : Except ResolveError α → Bool
  | .error (.noConnection _) => true
  | _ => false

/-- An incoming HTTP request, reduced to the two sources the middleware
reads: headers and URL query parameters. -/
structure Request where
  headers : List (String × String)
  query : List (String × String)
deriving DecidableEq, Repr

/-- `r.Header.Get(name)` — the empty string when the header is absent. -/
def headerGet (r : Request) (name : String) : String :=
  match lookupA r.headers name with
  | none => ""
  | some v => v

/-- `r.URL.Query().Get(name)` — the empty string when absent. -/
def queryGet (r : Request) (name : String) : String :=
  match lookupA r.query name with
  | none => ""
  | some v => v

/-- The API-key extraction of `Middleware` (dbresolver.go lines 152–155):
read the header, and if it is empty fall back to the query parameter of
the same name. -/
def effectiveApiKey (apiKeyHeader : String) (r : Request) : String :=
  let apiKey := headerGet r apiKeyHeader
  if apiKey = "" then queryGet r apiKeyHeader else apiKey

/-- The request-scoped context as seen by the downstream handler: the
values stored under `ConnectionContextKey` and `DatabaseContextKey`
(`none` models a key absent from the context). -/
structure Ctx where
  connection : Option GormDB
  database : Option String
deriving DecidableEq, Repr

/-- Observable outcome of one `Middleware` invocation: either
`http.Error(w, msg, 500)` with the resolution error (downstream handler
not invoked), or `next.ServeHTTP` with the enriched request context. -/
inductive MiddlewareOutcome
  | serverError (e : ResolveError)
  | nextServed (ctx : Ctx)
deriving DecidableEq, Repr

/-- `DBResolver.Middleware` from dbresolver.go lines 149–177. On the
success path the Go code discards the error of `resolveDatabaseName`
(`dbname, _ := ...`); on that error `dbname` is the zero value `""`. -/
def Middleware (resolver : DBResolver) (apiKeyHeader : String) (r : Request) :
    MiddlewareOutcome :=
  let apiKey := effectiveApiKey apiKeyHeader r
  match resolveConnection resolver apiKey with
  | .error e => .serverError e
  | .ok db =>
    let dbname :=
      match resolveDatabaseName resolver apiKey with
      | .ok n => n
      | .error _ => ""
    .nextServed ⟨some db, some dbname⟩

/-- `DBResolver.DB` from dbresolver.go lines 182–185: the unchecked type
assertion on the context value panics when the key is absent (`none`). -/
def DB (ctx : Ctx) : Option GormDB :=
  ctx.connection

/-- `DBResolver.DBName` from dbresolver.go lines 188–191. -/
def DBName (ctx : Ctx) : Option String :=
  ctx.database

/-- `DBResolver.AutoMigrate` from dbresolver.go lines 197–204.
`migrate conn` is the outcome of `conn.AutoMigrate(models...)`
(`none` = success, `some err` = failure). The result records the
connections on which a migration was attempted, in registry iteration
order, and `some err` when the loop panicked with `err`
(`if err != nil && errorCallback(err) { panic(err) }`). -/
def autoMigrateLoop (migrate : GormDB → Option String)
    (errorCallback : String → Bool) :
    List (String × GormDB) → List GormDB × Option String
  | [] => ([], none)
  | (_, conn) :: rest =>
    match migrate conn with
    | none =>
      let r := autoMigrateLoop migrate errorCallback rest
      (conn :: r.1, r.2)
    | some err =>
      if errorCallback err then ([conn], some err)
      else
        let r := autoMigrateLoop migrate errorCallback rest
        (conn :: r.1, r.2)

/-- `AutoMigrate` over the registry of the resolver; first component: the
backends attempted, second: the panic value if the loop panicked. -/
def AutoMigrate (resolver : DBResolver) (migrate : GormDB → Option String)
    (errorCallback : String → Bool) : List GormDB × Option String :=
  autoMigrateLoop migrate errorCallback resolver.conns

/-- Index of the `gorm.Open` call belonging to the last entry of
`drivers` whose database identifier is `db`, when the calls are numbered
from `base`; reference function for the last-insert-wins behaviour of
the registry built by `New`. -/
def lastOpenIndex : List DBDriver → String → Nat → Option Nat
  | [], _, _ => none
  | d :: rest, db, base =>
    match lastOpenIndex rest db (base + 1) with
    | some i => some i
    | none => if d.database = db then some base else none

/-! ### Concrete fixtures used by counterexamples and witnesses -/

/-- A resolver with two backends, as built by `New` from a two-tenant
configuration mapping `t1` to `a.db` and `t2` to `b.db`. -/
def twoBackendResolver : DBResolver :=
  ⟨[("a.db", ⟨0⟩), ("b.db", ⟨1⟩)],
   [("t1", [("database", "a.db"), ("driver", "sqlite")]),
    ("t2", [("database", "b.db"), ("driver", "sqlite")])]⟩

/-- A configuration in which two tenant entries reference the same
canonical database identifier with different driver kinds. -/
def sharedDbConfig : DatabaseConfig :=
  [("t1", [("database", "shared.db"), ("driver", "sqlite")]),
   ("t2", [("database", "shared.db"), ("driver", "postgres")])]

/-- The resolver `New` builds from `sharedDbConfig` when every open
succeeds: both tenants share the single registry entry, which holds the
handle of the second (last-iterated) open call. -/
def sharedTenantResolver : DBResolver :=
  ⟨[("shared.db", ⟨1⟩)], sharedDbConfig⟩

/-- A resolver whose configuration (pathologically) contains the
empty-string tenant key; nothing in the code forbids this. -/
def emptyKeyResolver : DBResolver :=
  ⟨[("a.db", ⟨0⟩)], [("", [("database", "a.db"), ("driver", "sqlite")])]⟩

/-- A resolver whose registry is empty although the configuration maps
tenant `t` to `a.db`. -/
def bareConfigResolver : DBResolver :=
  ⟨[], [("t", [("database", "a.db"), ("driver", "sqlite")])]⟩

/-! ### Shared helper lemmas -/

theorem lookupA_mem {α : Type} {l : List (String × α)} {k : String} {v : α}
    (h : lookupA l k = some v) : (k, v) ∈ l := by
  induction l with
  | nil => simp [lookupA] at h
  | cons p rest ih =>
    obtain ⟨k2, v2⟩ := p
    by_cases hk : k2 = k
    · subst hk
      simp [lookupA] at h
      subst h
      exact List.mem_cons_self _ _
    · simp [lookupA, hk] at h
      exact List.mem_cons_of_mem _ (ih h)

theorem insertConn_lookup_self (conns : List (String × GormDB)) (k : String)
    (v : GormDB) : lookupA (insertConn conns k v) k = some v := by
  induction conns with
  | nil => simp [insertConn, lookupA]
  | cons p rest ih =>
    obtain ⟨k2, v2⟩ := p
    by_cases hk : k2 = k
    · simp [insertConn, hk, lookupA]
    · simp [insertConn, hk, lookupA, ih]

theorem insertConn_lookup_ne (conns : List (String × GormDB)) (k k2 : String)
    (v : GormDB) (hne : k ≠ k2) :
    lookupA (insertConn conns k v) k2 = lookupA conns k2 := by
  induction conns with
  | nil => simp [insertConn, lookupA, hne]
  | cons p rest ih =>
    obtain ⟨k3, v3⟩ := p
    by_cases hk : k3 = k
    · subst hk
      simp [insertConn, lookupA, hne]
    · simp [insertConn, hk, lookupA, ih]

/-- `resolveConnection` through the lens of `resolveDatabaseName`: a
successful name resolution plus a registry hit determine the connection. -/
theorem resolveConnection_of_name (resolver : DBResolver) (t n : String)
    (h : GormDB) (hn : resolveDatabaseName resolver t = .ok n)
    (hc : lookupA resolver.conns n = some h) :
    resolveConnection resolver t = .ok h := by
  rcases hm : lookupA resolver.databaseConfig t with _ | m
  · simp [resolveDatabaseName, hm] at hn
  · rcases hd : lookupA m "database" with _ | n2
    · simp [resolveDatabaseName, hm, hd] at hn
    · simp [resolveDatabaseName, hm, hd] at hn
      subst hn
      simp [resolveConnection, hm, hd, hc]

/-- Success of `resolveConnection` yields the database name and the
registry entry it was read from. -/
theorem resolveConnection_ok_name (resolver : DBResolver) (apiKey : String)
    (h : GormDB) (hok : resolveConnection resolver apiKey = .ok h) :
    ∃ n, resolveDatabaseName resolver apiKey = .ok n ∧
      lookupA resolver.conns n = some h := by
  rcases hm : lookupA resolver.databaseConfig apiKey with _ | m
  · simp [resolveConnection, hm] at hok
  · rcases hd : lookupA m "database" with _ | n
    · simp [resolveConnection, hm, hd] at hok
    · rcases hc : lookupA resolver.conns n with _ | c
      · simp [resolveConnection, hm, hd, hc] at hok
      · simp [resolveConnection, hm, hd, hc] at hok
        exact ⟨n, by simp [resolveDatabaseName, hm, hd], hok ▸ hc⟩

/-! ### Claim theorems -/

/-- Claim C1: the claim (and the doc comment of `AutoMigrate` itself,
dbresolver.go lines 194–196) says a failure policy returning `true`
tolerates the failure and iteration continues, while `false` aborts.
The code has the condition inverted
(`if err != nil && errorCallback(err) { panic(err) }`): with a policy
that always returns `true` it panics at the first failing backend
without attempting the second, and with a policy that always returns
`false` it attempts every backend and completes normally. -/
theorem autoMigrate_policy_inverted :
    AutoMigrate twoBackendResolver (fun _ => some "migration failed")
        (fun _ => true) = ([⟨0⟩], some "migration failed") ∧
    AutoMigrate twoBackendResolver (fun _ => some "migration failed")
        (fun _ => false) = ([⟨0⟩, ⟨1⟩], none) := by
  decide

/-- Counterexample for claim C3: `resolveDatabaseName` never consults
the registry — on a resolver whose registry has no handle for `a.db` it
still returns `a.db` successfully instead of failing with the
no-connection error. -/
theorem resolveDatabaseName_ignores_registry :
    resolveDatabaseName bareConfigResolver "t" = .ok "a.db" ∧
    lookupA bareConfigResolver.conns "a.db" = none :=
  ⟨rfl, rfl⟩

/-- Claim C3 (amended): `resolveDatabaseName` performs only the two
configuration lookups (tenant entry, then its `database` key); its
result is independent of the registry, it never produces the
no-connection error, and it succeeds exactly when the configuration
entry exists and carries the `database` key. -/
theorem resolveDatabaseName_config_characterization
    (conns conns2 : List (String × GormDB)) (cfg : DatabaseConfig)
    (apiKey : String) :
    resolveDatabaseName ⟨conns, cfg⟩ apiKey =
      resolveDatabaseName ⟨conns2, cfg⟩ apiKey ∧
    isNoConnection (resolveDatabaseName ⟨conns, cfg⟩ apiKey) = false ∧
    (∀ n, resolveDatabaseName ⟨conns, cfg⟩ apiKey = .ok n ↔
      ∃ m, lookupA cfg apiKey = some m ∧ lookupA m "database" = some n) := by
  refine ⟨rfl, ?_, ?_⟩
  · rcases hm : lookupA cfg apiKey with _ | m
    · simp [resolveDatabaseName, hm, isNoConnection]
    · rcases hd : lookupA m "database" with _ | n
      · simp [resolveDatabaseName, hm, hd, isNoConnection]
      · simp [resolveDatabaseName, hm, hd, isNoConnection]
  · intro n
    rcases hm : lookupA cfg apiKey with _ | m
    · simp [resolveDatabaseName, hm]
    · rcases hd : lookupA m "database" with _ | n2
      · simp [resolveDatabaseName, hm, hd]
      · simp [resolveDatabaseName, hm, hd, eq_comm]

/-- Claim C4: exact characterization of the four outcomes of
`resolveConnection` — unknown tenant iff no configuration entry,
missing database key iff the entry exists but lacks `database`,
no connection iff the mapped identifier has no registry handle, and
success returns exactly the registry handle. -/
theorem resolveConnection_characterization
    (resolver : DBResolver) (apiKey : String) :
    (resolveConnection resolver apiKey = .error (.unknownTenant apiKey) ↔
      lookupA resolver.databaseConfig apiKey = none) ∧
    (resolveConnection resolver apiKey = .error (.missingDatabaseKey apiKey) ↔
      ∃ m, lookupA resolver.databaseConfig apiKey = some m ∧
        lookupA m "database" = none) ∧
    (resolveConnection resolver apiKey = .error (.noConnection apiKey) ↔
      ∃ m n, lookupA resolver.databaseConfig apiKey = some m ∧
        lookupA m "database" = some n ∧ lookupA resolver.conns n = none) ∧
    (∀ h, resolveConnection resolver apiKey = .ok h ↔
      ∃ m n, lookupA resolver.databaseConfig apiKey = some m ∧
        lookupA m "database" = some n ∧
        lookupA resolver.conns n = some h) := by
  rcases hm : lookupA resolver.databaseConfig apiKey with _ | m
  · simp [resolveConnection, hm]
  · rcases hd : lookupA m "database" with _ | n
    · simp [resolveConnection, hm, hd]
    · rcases hc : lookupA resolver.conns n with _ | c
      · simp [resolveConnection, hm, hd, hc]
      · simp [resolveConnection, hm, hd, hc, eq_comm]

/-- Claim C8: two tenant identifiers whose configuration entries map to
the same canonical database identifier resolve to the identical handle
instance — both calls return exactly the registry entry for that
identifier. -/
theorem resolveConnection_shared_backend
    (resolver : DBResolver) (t1 t2 n : String) (h : GormDB)
    (h1 : resolveDatabaseName resolver t1 = .ok n)
    (h2 : resolveDatabaseName resolver t2 = .ok n)
    (hc : lookupA resolver.conns n = some h) :
    resolveConnection resolver t1 = .ok h ∧
    resolveConnection resolver t2 = .ok h :=
  ⟨resolveConnection_of_name resolver t1 n h h1 hc,
   resolveConnection_of_name resolver t2 n h h2 hc⟩

/-- Witness for claim C8: tenants `t1` and `t2` of
`sharedTenantResolver` both map to `shared.db` and receive the
identical handle. -/
theorem resolveConnection_shared_backend_witness :
    resolveConnection sharedTenantResolver "t1" = .ok ⟨1⟩ ∧
    resolveConnection sharedTenantResolver "t2" = .ok ⟨1⟩ :=
  resolveConnection_shared_backend sharedTenantResolver "t1" "t2"
    "shared.db" ⟨1⟩ rfl rfl rfl

/-- Counterexample for claim C9: the code never requires a tenant
identifier to be non-empty — on a resolver whose configuration contains
the empty-string key, the empty identifier resolves successfully, and a
request with no identifier in header or query is bound to a handle by
the middleware. -/
theorem resolveConnection_empty_key_succeeds :
    resolveConnection emptyKeyResolver "" = .ok ⟨0⟩ ∧
    Middleware emptyKeyResolver "x-api-key" ⟨[], []⟩ =
      .nextServed ⟨some ⟨0⟩, some "a.db"⟩ :=
  ⟨rfl, rfl⟩

/-- Claim C9 (amended): resolving the empty-string tenant identifier
fails — with the unknown-tenant error — whenever the configuration has
no entry for the empty string, and under that proviso a request
supplying no identifier in either source is rejected by the middleware
and never bound to a connection handle. -/
theorem resolveConnection_empty_fails
    (resolver : DBResolver)
    (hnone : lookupA resolver.databaseConfig "" = none) :
    resolveConnection resolver "" = .error (.unknownTenant "") ∧
    ∀ (name : String) (r : Request), headerGet r name = "" →
      queryGet r name = "" →
      Middleware resolver name r = .serverError (.unknownTenant "") := by
  constructor
  · simp [resolveConnection, hnone]
  · intro name r hh hq
    simp [Middleware, effectiveApiKey, hh, hq, resolveConnection, hnone]

/-- Witness for claim C9 at an empty configuration and an empty request. -/
theorem resolveConnection_empty_fails_witness :
    resolveConnection ⟨[], []⟩ "" = .error (.unknownTenant "") ∧
    Middleware ⟨[], []⟩ "x-api-key" ⟨[], []⟩ =
      .serverError (.unknownTenant "") := by
  have t := resolveConnection_empty_fails ⟨[], []⟩ rfl
  exact ⟨t.1, t.2 "x-api-key" ⟨[], []⟩ rfl rfl⟩

/-- Claim C10: whenever `resolveConnection` succeeds with a handle, the
`resolveDatabaseName` call on the same key also succeeds, and its result
is the registry key under which that same handle is stored — so the
error the middleware discards on the success path is never present, and
the bound database name names the registry entry of the bound handle. -/
theorem resolveConnection_ok_implies_name
    (resolver : DBResolver) (apiKey : String) (h : GormDB)
    (hok : resolveConnection resolver apiKey = .ok h) :
    ∃ n, resolveDatabaseName resolver apiKey = .ok n ∧
      lookupA resolver.conns n = some h :=
  resolveConnection_ok_name resolver apiKey h hok

/-- Witness for claim C10 on a two-backend resolver. -/
theorem resolveConnection_ok_implies_name_witness :
    ∃ n, resolveDatabaseName twoBackendResolver "t2" = .ok n ∧
      lookupA twoBackendResolver.conns n = some ⟨1⟩ :=
  resolveConnection_ok_implies_name twoBackendResolver "t2" ⟨1⟩ rfl

/-- Counterexample for claim C5: the claim asserts that a request
carrying no identifier in either source is always answered with a
server error and never reaches the downstream handler; on a resolver
whose configuration contains the empty-string key, such a request
resolves the empty identifier successfully and the downstream handler
is invoked. -/
theorem middleware_no_identifier_served :
    Middleware emptyKeyResolver "x-api-key" ⟨[], []⟩ =
      .nextServed ⟨some ⟨0⟩, some "a.db"⟩ :=
  rfl

/-- Claim C5 (amended): the middleware reads the identifier from the
configured header, falls back to the query parameter of the same name
when the header is absent or empty, and on any resolution failure
responds with a server error carrying the failure and does not invoke
the downstream handler; a request with no identifier in either source
resolves the empty identifier, which fails whenever the configuration
has no entry for the empty string. -/
theorem middleware_error_handling
    (resolver : DBResolver) (name : String) (r : Request)
    (e : ResolveError) :
    (headerGet r name ≠ "" → effectiveApiKey name r = headerGet r name) ∧
    (headerGet r name = "" → effectiveApiKey name r = queryGet r name) ∧
    (resolveConnection resolver (effectiveApiKey name r) = .error e →
      Middleware resolver name r = .serverError e) ∧
    (headerGet r name = "" → queryGet r name = "" →
      lookupA resolver.databaseConfig "" = none →
      Middleware resolver name r = .serverError (.unknownTenant "")) := by
  refine ⟨?_, ?_, ?_, ?_⟩
  · intro hh
    simp [effectiveApiKey, hh]
  · intro hh
    simp [effectiveApiKey, hh]
  · intro he
    simp [Middleware, he]
  · intro hh hq hnone
    simp [Middleware, effectiveApiKey, hh, hq, resolveConnection, hnone]

/-- Witness for claim C5: an identifier-less request against an empty
configuration is rejected, and a request with a non-empty header uses
the header value. -/
theorem middleware_error_handling_witness :
    Middleware ⟨[], []⟩ "x-api-key" ⟨[], []⟩ =
      .serverError (.unknownTenant "") ∧
    effectiveApiKey "x-api-key" ⟨[("x-api-key", "t9")], []⟩ = "t9" := by
  have t1 := middleware_error_handling ⟨[], []⟩ "x-api-key" ⟨[], []⟩
      (.unknownTenant "")
  have t2 := middleware_error_handling ⟨[], []⟩ "x-api-key"
      ⟨[("x-api-key", "t9")], []⟩ (.unknownTenant "")
  exact ⟨t1.2.2.2 rfl rfl rfl, t2.1 (by decide)⟩

/-- Claim C6: when the tenant identifier of a request resolves to a
handle (and its canonical database name), the middleware invokes the
downstream handler with a context carrying exactly that handle under
the connection key and that name under the database key, so the `DB`
and `DBName` accessors return them. -/
theorem middleware_success_binds_context
    (resolver : DBResolver) (name : String) (r : Request) (h : GormDB)
    (hok : resolveConnection resolver (effectiveApiKey name r) = .ok h) :
    ∃ n, resolveDatabaseName resolver (effectiveApiKey name r) = .ok n ∧
      Middleware resolver name r = .nextServed ⟨some h, some n⟩ ∧
      DB ⟨some h, some n⟩ = some h ∧
      DBName ⟨some h, some n⟩ = some n := by
  obtain ⟨n, hn, -⟩ := resolveConnection_ok_name resolver _ h hok
  exact ⟨n, hn, by simp [Middleware, hok, hn], rfl, rfl⟩

/-- Witness for claim C6: a request with header `x-api-key: t1` against
the two-backend resolver is served with the handle and name of `a.db`. -/
theorem middleware_success_binds_context_witness :
    ∃ n, resolveDatabaseName twoBackendResolver
        (effectiveApiKey "x-api-key" ⟨[("x-api-key", "t1")], []⟩) = .ok n ∧
      Middleware twoBackendResolver "x-api-key"
          ⟨[("x-api-key", "t1")], []⟩ =
        .nextServed ⟨some ⟨0⟩, some n⟩ ∧
      DB ⟨some ⟨0⟩, some n⟩ = some ⟨0⟩ ∧
      DBName ⟨some ⟨0⟩, some n⟩ = some n :=
  middleware_success_binds_context twoBackendResolver "x-api-key"
    ⟨[("x-api-key", "t1")], []⟩ ⟨0⟩ rfl

/-! ### Lemmas about the initialization loop of `New` -/

theorem newLoop_count (openOk : Dialect → Bool) (ds : List DBDriver)
    (acc conns : List (String × GormDB)) (f n : Nat)
    (hloop : newLoop openOk ds acc f = .ok (conns, n)) :
    n = f + ds.length := by
  induction ds generalizing acc f with
  | nil =>
    simp [newLoop] at hloop
    simp [hloop.2]
  | cons d rest ih =>
    rcases hdial : dialectFor d.driver d.database with _ | dialect
    · simp [newLoop, hdial] at hloop
    · cases hok : openOk dialect
      · simp [newLoop, hdial, hok] at hloop
      · simp [newLoop, hdial, hok] at hloop
        have h2 := ih _ _ hloop
        simp [List.length_cons]
        omega

theorem mem_insertConn (conns : List (String × GormDB)) (k k2 : String)
    (v v2 : GormDB) (h : (k2, v2) ∈ insertConn conns k v) :
    (k2 = k ∧ v2 = v) ∨ (k2, v2) ∈ conns := by
  induction conns with
  | nil =>
    simp [insertConn] at h
    exact Or.inl h
  | cons p rest ih =>
    obtain ⟨k3, v3⟩ := p
    by_cases hk : k3 = k
    · subst hk
      rw [insertConn, if_pos rfl] at h
      rcases List.mem_cons.mp h with hm | hm
      · exact Or.inl (by simpa using hm)
      · exact Or.inr (List.mem_cons_of_mem _ hm)
    · rw [insertConn, if_neg hk] at h
      rcases List.mem_cons.mp h with hm | hm
      · exact Or.inr (List.mem_cons.mpr (Or.inl hm))
      · rcases ih hm with hm2 | hm2
        · exact Or.inl hm2
        · exact Or.inr (List.mem_cons_of_mem _ hm2)

theorem mem_keys_insertConn (conns : List (String × GormDB)) (k k2 : String)
    (v : GormDB) (h : k2 ∈ (insertConn conns k v).map Prod.fst) :
    k2 ∈ conns.map Prod.fst ∨ k2 = k := by
  obtain ⟨p, hmem, rfl⟩ := List.mem_map.mp h
  obtain ⟨k4, v4⟩ := p
  rcases mem_insertConn conns k k4 v v4 hmem with ⟨h1, -⟩ | h1
  · exact Or.inr h1
  · exact Or.inl (List.mem_map.mpr ⟨(k4, v4), h1, rfl⟩)

theorem insertConn_keys_nodup (conns : List (String × GormDB)) (k : String)
    (v : GormDB) (h : (conns.map Prod.fst).Nodup) :
    ((insertConn conns k v).map Prod.fst).Nodup := by
  induction conns with
  | nil => simp [insertConn]
  | cons p rest ih =>
    obtain ⟨k3, v3⟩ := p
    rw [List.map_cons, List.nodup_cons] at h
    by_cases hk : k3 = k
    · subst hk
      rw [insertConn, if_pos rfl, List.map_cons, List.nodup_cons]
      exact h
    · rw [insertConn, if_neg hk, List.map_cons, List.nodup_cons]
      refine ⟨?_, ih h.2⟩
      intro hmem
      rcases mem_keys_insertConn rest k k3 v hmem with hm | hm
      · exact h.1 hm
      · exact hk hm

theorem newLoop_keys_nodup (openOk : Dialect → Bool) (ds : List DBDriver)
    (acc conns : List (String × GormDB)) (f n : Nat)
    (hloop : newLoop openOk ds acc f = .ok (conns, n))
    (hacc : (acc.map Prod.fst).Nodup) :
    (conns.map Prod.fst).Nodup := by
  induction ds generalizing acc f with
  | nil =>
    simp [newLoop] at hloop
    exact hloop.1 ▸ hacc
  | cons d rest ih =>
    rcases hdial : dialectFor d.driver d.database with _ | dialect
    · simp [newLoop, hdial] at hloop
    · cases hok : openOk dialect
      · simp [newLoop, hdial, hok] at hloop
      · simp [newLoop, hdial, hok] at hloop
        exact ih _ _ hloop (insertConn_keys_nodup acc d.database ⟨f⟩ hacc)

/-- The registry built by the loop of `New`: an identifier maps to the
handle created by the last open call for it, and otherwise to its
binding in the starting accumulator. -/
theorem newLoop_lookup (openOk : Dialect → Bool) (ds : List DBDriver)
    (acc conns : List (String × GormDB)) (f n : Nat)
    (hloop : newLoop openOk ds acc f = .ok (conns, n)) (db : String) :
    lookupA conns db =
      match lastOpenIndex ds db f with
      | some i => some ⟨i⟩
      | none => lookupA acc db := by
  induction ds generalizing acc f with
  | nil =>
    simp [newLoop] at hloop
    simp [lastOpenIndex, hloop.1]
  | cons d rest ih =>
    rcases hdial : dialectFor d.driver d.database with _ | dialect
    · simp [newLoop, hdial] at hloop
    · cases hok : openOk dialect
      · simp [newLoop, hdial, hok] at hloop
      · simp [newLoop, hdial, hok] at hloop
        have hrec := ih _ _ hloop
        rw [hrec]
        rcases hl : lastOpenIndex rest db (f + 1) with _ | i
        · by_cases hdb : d.database = db
          · simp [lastOpenIndex, hl, hdb, insertConn_lookup_self]
          · simp [lastOpenIndex, hl, hdb,
              insertConn_lookup_ne acc d.database db ⟨f⟩ hdb]
        · simp [lastOpenIndex, hl]

theorem lastOpenIndex_isSome_of_mem (ds : List DBDriver) (d : DBDriver)
    (base : Nat) (hd : d ∈ ds) :
    ∃ i, lastOpenIndex ds d.database base = some i := by
  induction ds generalizing base with
  | nil => cases hd
  | cons d2 rest ih =>
    rcases List.mem_cons.mp hd with hm | hm
    · subst hm
      rcases hl : lastOpenIndex rest d.database (base + 1) with _ | i
      · exact ⟨base, by simp [lastOpenIndex, hl]⟩
      · exact ⟨i, by simp [lastOpenIndex, hl]⟩
    · obtain ⟨i, hi⟩ := ih (base + 1) hm
      exact ⟨i, by simp [lastOpenIndex, hi]⟩

theorem databaseDrivers_length (c : DatabaseConfig) (ds : List DBDriver)
    (hds : DatabaseDrivers c = some ds) : ds.length = c.length := by
  induction c generalizing ds with
  | nil =>
    simp [DatabaseDrivers] at hds
    simp [← hds]
  | cons p rest ih =>
    obtain ⟨k, dbmap⟩ := p
    rcases hdrv : lookupA dbmap "driver" with _ | drv
    · simp [DatabaseDrivers, hdrv] at hds
    · rcases hdb : lookupA dbmap "database" with _ | db
      · simp [DatabaseDrivers, hdrv, hdb] at hds
      · rcases hrest : DatabaseDrivers rest with _ | ds2
        · simp [DatabaseDrivers, hdrv, hdb, hrest] at hds
        · simp [DatabaseDrivers, hdrv, hdb, hrest] at hds
          subst hds
          simp [ih ds2 hrest]

/-- Every tenant entry of a configuration on which `DatabaseDrivers`
does not panic carries both keys, and its backend descriptor is among
the returned drivers. -/
theorem databaseDrivers_mem (c : DatabaseConfig) (ds : List DBDriver)
    (hds : DatabaseDrivers c = some ds) (k : String) (entry : Entry)
    (hmem : (k, entry) ∈ c) :
    ∃ drv db, lookupA entry "driver" = some drv ∧
      lookupA entry "database" = some db ∧
      (⟨drv, db⟩ : DBDriver) ∈ ds := by
  induction c generalizing ds with
  | nil => cases hmem
  | cons p rest ih =>
    obtain ⟨k2, dbmap⟩ := p
    rcases hdrv : lookupA dbmap "driver" with _ | drv
    · simp [DatabaseDrivers, hdrv] at hds
    · rcases hdb : lookupA dbmap "database" with _ | db
      · simp [DatabaseDrivers, hdrv, hdb] at hds
      · rcases hrest : DatabaseDrivers rest with _ | ds2
        · simp [DatabaseDrivers, hdrv, hdb, hrest] at hds
        · simp [DatabaseDrivers, hdrv, hdb, hrest] at hds
          subst hds
          rcases List.mem_cons.mp hmem with hm | hm
          · have hpair : k = k2 ∧ entry = dbmap := by
              simpa using hm
            obtain ⟨-, he⟩ := hpair
            subst he
            exact ⟨drv, db, hdrv, hdb, List.mem_cons_self _ _⟩
          · obtain ⟨drv2, db2, h1, h2, h3⟩ := ih ds2 hrest hm
            exact ⟨drv2, db2, h1, h2, List.mem_cons_of_mem _ h3⟩

/-- Counterexample for claim C2: both entries of `sharedDbConfig`
reference the single canonical identifier `shared.db` (as the two
`resolveDatabaseName` conjuncts show), yet `New` performs two open
calls, not one, and the registry retains the handle of the second
(last-iterated) entry — opened with its `postgres` driver — not the
handle `⟨0⟩` of the first entry. -/
theorem new_opens_per_entry :
    New sharedDbConfig (fun _ => true) = .ok (sharedTenantResolver, 2) ∧
    resolveDatabaseName sharedTenantResolver "t1" = .ok "shared.db" ∧
    resolveDatabaseName sharedTenantResolver "t2" = .ok "shared.db" ∧
    lookupA sharedTenantResolver.conns "shared.db" = some ⟨1⟩ :=
  ⟨rfl, rfl, rfl, rfl⟩

/-- Claim C2 (amended): `New` opens one connection per tenant entry —
an identifier referenced by several entries is opened once per entry,
with the driver each entry declares — and the resulting registry holds
no duplicate entries per identifier, mapping each identifier to the
handle of the last open call performed for it (relative to the modelled
iteration order of the configuration). -/
theorem new_registry_characterization
    (c : DatabaseConfig) (openOk : Dialect → Bool) (resolver : DBResolver)
    (count : Nat) (ds : List DBDriver)
    (hnew : New c openOk = .ok (resolver, count))
    (hds : DatabaseDrivers c = some ds) :
    count = c.length ∧
    (resolver.conns.map Prod.fst).Nodup ∧
    ∀ db, lookupA resolver.conns db =
      (lastOpenIndex ds db 0).map (fun i => GormDB.mk i) := by
  rcases hloop : newLoop openOk ds [] 0 with e | pr
  · simp [New, hds, hloop] at hnew
  · obtain ⟨conns, fresh⟩ := pr
    simp [New, hds, hloop] at hnew
    obtain ⟨hres, hcount⟩ := hnew
    refine ⟨?_, ?_, ?_⟩
    · have h1 := newLoop_count openOk ds [] conns 0 fresh hloop
      have h2 := databaseDrivers_length c ds hds
      omega
    · have h1 := newLoop_keys_nodup openOk ds [] conns 0 fresh hloop
        (by simp)
      rw [← hres]
      exact h1
    · intro db
      have h1 := newLoop_lookup openOk ds [] conns 0 fresh hloop db
      rw [← hres]
      rw [h1]
      rcases hl : lastOpenIndex ds db 0 with _ | i
      · simp [lookupA]
      · simp

/-- Witness for claim C2 on `sharedDbConfig`: the open count equals the
number of tenant entries, and the identifier maps to the handle of its
last open call. -/
theorem new_registry_characterization_witness :
    2 = sharedDbConfig.length ∧
    lookupA sharedTenantResolver.conns "shared.db" =
      (lastOpenIndex [⟨"sqlite", "shared.db"⟩, ⟨"postgres", "shared.db"⟩]
        "shared.db" 0).map (fun i => GormDB.mk i) := by
  have t := new_registry_characterization sharedDbConfig (fun _ => true)
    sharedTenantResolver 2
    [⟨"sqlite", "shared.db"⟩, ⟨"postgres", "shared.db"⟩] rfl rfl
  exact ⟨t.1, t.2.2 "shared.db"⟩

/-- Claim C7: when `New` returns a resolver without error, every tenant
identifier present in the configuration resolves without touching any
of the three error branches of `resolveConnection`, and — the lookups
being deterministic — every call returns the same handle instance. -/
theorem new_ok_resolves_all
    (c : DatabaseConfig) (openOk : Dialect → Bool) (resolver : DBResolver)
    (count : Nat) (k : String) (entry : Entry)
    (hnew : New c openOk = .ok (resolver, count))
    (hk : lookupA c k = some entry) :
    ∃ h, resolveConnection resolver k = .ok h ∧
      ∀ h2, resolveConnection resolver k = .ok h2 → h2 = h := by
  rcases hds : DatabaseDrivers c with _ | ds
  · simp [New, hds] at hnew
  · rcases hloop : newLoop openOk ds [] 0 with e | pr
    · simp [New, hds, hloop] at hnew
    · obtain ⟨conns, fresh⟩ := pr
      simp [New, hds, hloop] at hnew
      obtain ⟨hres, hcount⟩ := hnew
      obtain ⟨drv, db, hdrv, hdb, hmemds⟩ :=
        databaseDrivers_mem c ds hds k entry (lookupA_mem hk)
      obtain ⟨i, hi⟩ :=
        lastOpenIndex_isSome_of_mem ds ⟨drv, db⟩ 0 hmemds
      have hi2 : lastOpenIndex ds db 0 = some i := hi
      have hlook := newLoop_lookup openOk ds [] conns 0 fresh hloop db
      rw [hi2] at hlook
      have hmain : resolveConnection resolver k = .ok ⟨i⟩ := by
        rw [← hres]
        simp [resolveConnection, hk, hdb, hlook]
      refine ⟨⟨i⟩, hmain, ?_⟩
      intro h2 hh2
      rw [hmain] at hh2
      exact (Except.ok.inj hh2).symm

/-- Witness for claim C7: `New` on `sharedDbConfig` succeeds and tenant
`t1` resolves to a unique handle. -/
theorem new_ok_resolves_all_witness :
    ∃ h, resolveConnection sharedTenantResolver "t1" = .ok h ∧
      ∀ h2, resolveConnection sharedTenantResolver "t1" = .ok h2 →
        h2 = h :=
  new_ok_resolves_all sharedDbConfig (fun _ => true) sharedTenantResolver
    2 "t1" [("database", "shared.db"), ("driver", "sqlite")] rfl rfl

end Dbresolver
